import Mathlib

/-!
Shallow embedding of the SmartBet repository (a Flask betting-prediction app)
and proofs about its specification claims.

Conventions of the embedding:
* Python numbers (floats) are modelled as exact rationals `ℚ`.
* Python dictionaries with a known key set are modelled as structures whose
  fields are `Option`-typed when the corresponding key may be absent;
  dictionaries with dynamic keys are modelled as association lists
  `List (String × _)` in insertion order.
* Fallible code is modelled with `Option`/`Except`.
* The joblib-loaded scikit-learn model is opaque in the source; its
  `predict_proba(features)[:, 1]` output is modelled as a list of
  probabilities supplied as a parameter.
-/

namespace SmartBet

/-- The Python exceptions the embedded functions can raise. -/
inductive PyErr where
  /-- An explicit `raise ValueError(msg)`, or one raised inside pandas. -/
  | valueError (msg : String)
  /-- `pd.read_csv` / `pd.read_excel` failed (re-raised by the source). -/
  | loadError
  /-- Column access on a frame without that column (`df['markets']`). -/
  | keyError
  /-- `.get` called on a NaN cell inside `.apply`. -/
  | attributeError
  /-- scikit-learn rejected its input (NaN values or zero samples). -/
  | sklearnError
deriving DecidableEq, Repr

/-! ## `src/prediction/prediction.py` -/


/-- A bookmaker-details dictionary as it appears inside an odds record
(`bookmaker_details` in `odds_api.py` output); every key may be absent. -/
structure RawBookmaker where
  bookmaker_name : Option String
  bookmaker_price : Option ℚ
  bookmaker_link : Option String
deriving DecidableEq, Repr

/-- One element of the `odds` list handed to `extract_outcome_data`:
a dictionary whose keys may all be absent (`event.get(..., default)`). -/
structure RawEvent where
  event_id : Option String
  event_date : Option String
  market_name : Option String
  outcome_name : Option String
  best_price : Option ℚ
  bookmaker_details : Option RawBookmaker
deriving DecidableEq, Repr

/-- The flat record `extract_outcome_data` builds for one event
(every field populated with the source's defaults). -/
structure OutcomeData where
  event_id : String
  event_date : String
  market_name : String
  outcome_name : String
  best_price : ℚ
  bookmaker_name : String
  bookmaker_price : ℚ
  bookmaker_link : String
deriving DecidableEq, Repr

/-- The per-event body of the loop in `extract_outcome_data`:
`event.get(k, default)` for the flat keys, and
`event.get("bookmaker_details", {}).get(k, default)` for the nested ones
(an absent `bookmaker_details` behaves as the empty dictionary). -/
def extractEvent (event : RawEvent) : OutcomeData :=
  let bookmaker := event.bookmaker_details
  { event_id := event.event_id.getD "Unknown"
    event_date := event.event_date.getD "Unknown"
    market_name := event.market_name.getD "Unknown"
    outcome_name := event.outcome_name.getD "Unknown"
    best_price := event.best_price.getD 0
    bookmaker_name := (bookmaker.bind (·.bookmaker_name)).getD "Unknown"
    bookmaker_price := (bookmaker.bind (·.bookmaker_price)).getD 0
    bookmaker_link := (bookmaker.bind (·.bookmaker_link)).getD "N/A" }

/-- `extract_outcome_data`: one output record appended per input event,
in input order. -/
def extract_outcome_data (odds : List RawEvent) : List OutcomeData :=
  odds.map extractEvent

/-- The record appended to `bet_predictions` in `predict_bet`. -/
structure BetPrediction where
  event_id : String
  market_name : String
  outcome_name : String
  bookmaker : String
  bookmaker_link : String
  bet_coef : ℚ
  ev : ℚ
  predicted_probability : ℚ
  expected_profit : ℚ
deriving DecidableEq, Repr

/-- The loop body of `predict_bet` for candidate `i`:
`bet_odd = processed_data[i].get("bookmaker_price", 0)` (the key is always
present in `extract_outcome_data` output), `ev = p*bet_odd - (1-p)`, and the
dictionary literal appended when the threshold passes. -/
def mkBetPrediction (desired_profit probability : ℚ) (d : OutcomeData) : BetPrediction :=
  let bet_odd := d.bookmaker_price
  let ev := probability * bet_odd - (1 - probability)
  { event_id := d.event_id
    market_name := d.market_name
    outcome_name := d.outcome_name
    bookmaker := d.bookmaker_name
    bookmaker_link := d.bookmaker_link
    bet_coef := bet_odd
    ev := ev
    predicted_probability := probability
    expected_profit := ev * bet_odd * desired_profit }

/-- The threshold test of `predict_bet`: `ev > 0 and bet_odd <= max_odds`. -/
def passesThreshold (max_odds : ℚ) (b : BetPrediction) : Bool :=
  decide (0 < b.ev) && decide (b.bet_coef ≤ max_odds)

/-- The columns of `pd.DataFrame(processed_df.to_dict(orient='records'))`
inside `predict_bet`: for a non-empty record list, exactly the eight keys
`extract_outcome_data` writes (note: no `bookmaker_details` — that dictionary
was flattened into the three `bookmaker_*` fields); an empty list yields a
frame with no columns at all. -/
def outcomeDataColumns (records : List OutcomeData) : List String :=
  if records.isEmpty then []
  else ["event_id", "event_date", "market_name", "outcome_name", "best_price",
        "bookmaker_name", "bookmaker_price", "bookmaker_link"]

namespace SrcPrediction

/-- The module-level `preprocess_data` of `src/prediction/prediction.py`,
at its only call site: `predict_bet` passes
`processed_df.to_dict(orient='records')`, a list of the flattened records of
`extract_outcome_data` (so the isinstance check passes and the parameter type
is `List OutcomeData`). The function validates
`required_columns = ['best_price', 'event_id', 'market_name',
'bookmaker_details']` against the frame's columns and raises
`ValueError("Missing required columns: ...")` when any is absent — which is
the case on every input here, since the flattened records never carry a
`bookmaker_details` column. The code past the check (`fillna(0)` — no-op on
these fully-populated records —, `get_dummies` on `market_name` /
`outcome_name`, and `StandardScaler` over the `best_price` column, returning
`(features, df['event_id'])`) is consequently unreachable; the scaler is kept
symbolic as `(x, mean, variance)` triples. -/
def preprocess_data (odds : List OutcomeData) :
    Except PyErr (List (ℚ × ℚ × ℚ) × List String) := do
  let cols := outcomeDataColumns odds
  let required_columns := ["best_price", "event_id", "market_name", "bookmaker_details"]
  let missing_columns := required_columns.filter fun c => !cols.contains c
  if !missing_columns.isEmpty then
    throw (.valueError ("Missing required columns: " ++ String.intercalate ", " missing_columns))
  let vs := odds.map (·.best_price)
  let mean := vs.sum / (vs.length : ℚ)
  let variance := (vs.map fun x => (x - mean) ^ 2).sum / (vs.length : ℚ)
  return (vs.map fun x => (x, mean, variance), odds.map (·.event_id))

end SrcPrediction

/-- `predict_bet` (model loading aside, which is filesystem I/O):
`probs` stands for `predict_proba(features)[:, 1]`, one probability per row of
the preprocessed data (pandas keeps one row per record, so in the source the
two lists have equal length; `zip` realises `enumerate` + `processed_data[i]`).
The `preprocess_data` call at prediction.py:123 raises `ValueError` on every
input (its required-columns check demands `bookmaker_details`, which
`extract_outcome_data` never emits), so the function propagates that error
before `predict_proba` and the EV loop. On the (unreachable) success path the
loop computing EV and filtering is rendered as `map` + `filter`, and
`list.sort(key=..., reverse=True)` as a stable merge sort putting larger
`expected_profit` first, returning `(bet_predictions, processed_data)`. -/
def predict_bet (probs : List ℚ) (odds : List RawEvent) (max_odds desired_profit : ℚ) :
    Except PyErr (List BetPrediction × List OutcomeData) := do
  let processed_data := extract_outcome_data odds
  let _ ← SrcPrediction.preprocess_data processed_data
  let bet_predictions :=
    ((probs.zip processed_data).map fun pd => mkBetPrediction desired_profit pd.1 pd.2).filter
      (passesThreshold max_odds)
  return (bet_predictions.mergeSort fun a b => decide (b.expected_profit ≤ a.expected_profit),
    processed_data)

/-- The bookmaker price a raw odds record carries:
`event.get("bookmaker_details", {}).get("bookmaker_price", 0)`. -/
def eventBookmakerPrice (e : RawEvent) : ℚ :=
  (e.bookmaker_details.bind (·.bookmaker_price)).getD 0

/-- Concrete odds record: bookmaker price 1, everything else absent. -/
def evA : RawEvent :=
  { event_id := some "A", event_date := none, market_name := none, outcome_name := none,
    best_price := none,
    bookmaker_details :=
      some { bookmaker_name := none, bookmaker_price := some 1, bookmaker_link := none } }

/-- Concrete odds record: bookmaker price 2, everything else absent. -/
def evB : RawEvent :=
  { event_id := some "B", event_date := none, market_name := none, outcome_name := none,
    best_price := none,
    bookmaker_details :=
      some { bookmaker_name := none, bookmaker_price := some 2, bookmaker_link := none } }

/-! ## `code/source/user_behavior/user_tracking.py`

The module keeps a module-level dictionary `user_data` (mirrored to a JSON
file; the file I/O is not modelled, the dictionary is the state). We model the
dictionary as an association list in insertion order. -/

/-- One element of a user's `bets` list:
`{'model': ..., 'bet_amount': ..., 'prediction': ..., 'odds': ...}`.
`model` is a string and `odds` a number in this model; the source passes them
through untouched. -/
structure BetRecord where
  model : String
  bet_amount : ℚ
  prediction : String
  odds : ℚ
deriving DecidableEq, Repr

/-- A user's `preferences` dictionary; the `risk_tolerance` key may be absent
(`update_user_preferences` first creates `'preferences': {}`). -/
structure Preferences where
  risk_tolerance : Option String
deriving DecidableEq, Repr

/-- The per-user record stored in `user_data`. -/
structure UserRecord where
  bets : List BetRecord
  preferences : Preferences
deriving DecidableEq, Repr

/-- The `user_data` dictionary, keys in insertion order. -/
abbrev UserStore : Type := List (String × UserRecord)

/-- Dictionary read `user_data[uid]` / membership test. -/
def lookupUser : UserStore → String → Option UserRecord
  | [], _ => none
  | (k, v) :: rest, uid => if k = uid then some v else lookupUser rest uid

/-- In-place value update of the entry with the given key (Python dictionary
keys are unique, so at most one entry matches). -/
def updateUser : UserStore → String → (UserRecord → UserRecord) → UserStore
  | [], _, _ => []
  | (k, v) :: rest, uid, f =>
      if k = uid then (k, f v) :: rest else (k, v) :: updateUser rest uid f

/-- The record created for an absent user:
`{'bets': [], 'preferences': {'risk_tolerance': 'medium'}}`. -/
def defaultUserRecord : UserRecord :=
  { bets := [], preferences := { risk_tolerance := some "medium" } }

/-- `save_user_bet`: create the user with the default record when absent
(a new dictionary key is inserted at the end), then append the bet. -/
def save_user_bet (store : UserStore) (user_id model : String) (bet_amount : ℚ)
    (prediction : String) (odds : ℚ) : UserStore :=
  let store' :=
    if (lookupUser store user_id).isSome then store
    else store ++ [(user_id, defaultUserRecord)]
  updateUser store' user_id fun r =>
    { r with bets := r.bets ++ [{ model := model, bet_amount := bet_amount,
                                  prediction := prediction, odds := odds }] }

/-- `get_user_preferences`:
`user_data.get(user_id, {}).get('preferences', {'risk_tolerance': 'medium'})`. -/
def get_user_preferences (store : UserStore) (user_id : String) : Preferences :=
  ((lookupUser store user_id).map (·.preferences)).getD
    { risk_tolerance := some "medium" }

/-- A user's bet history, `[]` when the user is absent. -/
def userBets (store : UserStore) (user_id : String) : List BetRecord :=
  ((lookupUser store user_id).map (·.bets)).getD []

/-! ## `code/source/app.py`, the `/bet` handler -/

/-- The per-team dictionary built for `match_stats`. -/
structure TeamSideStats where
  goals : ℤ
  shots : ℤ
  pass_accuracy : ℤ
deriving DecidableEq, Repr

/-- Generic dictionary read `d.get(key)` on a string-keyed dictionary
modelled as an association list. -/
def dictGet {α : Type} : List (String × α) → String → Option α
  | [], _ => none
  | (k, v) :: rest, key => if k = key then some v else dictGet rest key

/-- One value of an outcome's `bookmakers` dictionary. The same dictionary
also holds the `bestPrice` summary entry, which the source reads with
`.get("bestPrice", {}).get("price", "N/A")` and which the bookmaker loop
iterates over like any other entry. -/
structure BookmakerData where
  price : Option ℚ
  eventPath : Option String
deriving DecidableEq, Repr

/-- One value of a market's `outcomes` dictionary. -/
structure ApiOutcome where
  outcomeName : Option String
  bookmakers : List (String × BookmakerData)
deriving DecidableEq, Repr

/-- One value of the response's `markets` dictionary. -/
structure ApiMarket where
  marketName : Option String
  marketNameShort : Option String
  oddsType : Option String
  outcomes : List (String × ApiOutcome)
deriving DecidableEq, Repr

/-- The decoded API response when it is a dictionary. -/
structure ApiResponse where
  eventId : Option String
  date : Option String
  eventStatus : Option String
  markets : List (String × ApiMarket)
deriving DecidableEq, Repr

/-- The bookmaker-details dictionary the inner loop leaves behind: it
overwrites `odds_info["bookmaker_details"]` once per `bookmakers` item, so
only the last item survives; the key is absent when the dictionary is empty.
Prices and links read with `.get(_, "N/A")`; a `none` price stands for the
string `"N/A"`. -/
structure BookmakerInfo where
  bookmaker_name : String
  bookmaker_price : Option ℚ
  bookmaker_link : String
deriving DecidableEq, Repr

/-- The entry `{**event_info, **market_info, **odds_info}` appended to
`odds_list` for one (market, outcome) pair. -/
structure OddsEntry where
  event_id : String
  event_date : String
  event_status : String
  market_name : String
  market_short_name : String
  odds_type : String
  outcome_name : String
  best_price : Option ℚ
  bookmaker_details : Option BookmakerInfo
deriving DecidableEq, Repr

/-- The entry built for one (market, outcome) pair in `get_gambling_odds`. -/
def mkOddsEntry (data : ApiResponse) (m : ApiMarket) (o : ApiOutcome) : OddsEntry :=
  { event_id := data.eventId.getD "N/A"
    event_date := data.date.getD "N/A"
    event_status := data.eventStatus.getD "N/A"
    market_name := m.marketName.getD "N/A"
    market_short_name := m.marketNameShort.getD "N/A"
    odds_type := m.oddsType.getD "N/A"
    outcome_name := o.outcomeName.getD "N/A"
    best_price := (dictGet o.bookmakers "bestPrice").bind (·.price)
    bookmaker_details := o.bookmakers.getLast?.map fun bkv =>
      { bookmaker_name := bkv.1
        bookmaker_price := bkv.2.price
        bookmaker_link := bkv.2.eventPath.getD "N/A" } }

/-- `get_gambling_odds` of `odds_api.py`, applied to an already-decoded
dictionary response (the non-dictionary and exception paths return `None`
before this structure is built): the nested `for market ... for outcome ...`
loops append one entry per (market, outcome) pair. -/
def get_gambling_odds (data : ApiResponse) : List OddsEntry :=
  data.markets.flatMap fun mkv => mkv.2.outcomes.map fun okv => mkOddsEntry data mkv.2 okv.2

/-- Concrete outcome for the C7 witness: a `bookmakers` dictionary holding
the `bestPrice` summary and one real bookmaker. -/
def apiOutcome1 : ApiOutcome :=
  { outcomeName := some "1"
    bookmakers := [("bestPrice", { price := some 2, eventPath := none }),
                   ("bet365", { price := some (21/10), eventPath := some "/ev/1" })] }

/-- Concrete market for the C7 witness. -/
def apiMarket1 : ApiMarket :=
  { marketName := some "Match Winner", marketNameShort := some "1X2",
    oddsType := some "decimal", outcomes := [("101", apiOutcome1)] }

/-- Concrete response for the C7 witness. -/
def apiResponse1 : ApiResponse :=
  { eventId := some "id1000001750850429", date := some "2025-06-25",
    eventStatus := some "pending", markets := [("101", apiMarket1)] }

/-! ## `code/source/models/utils/odds_calculator.py` -/

/-- Python's `round(x, 2)` modelled as exact rational rounding to two decimal
places. (CPython rounds ties to even on binary floats; the tie-breaking
convention does not affect any bound proved here, since rounding cannot cross
an exactly-representable two-decimal endpoint.) -/
def roundq2 (x : ℚ) : ℚ := ((round (100 * x) : ℤ) : ℚ) / 100

/-- `calculate_odds` of `models/utils/odds_calculator.py`. `rfa`/`rfb` stand
for the two `random.uniform(0.05, 0.15)` draws. Integer team stats are
modelled as `ℤ` (`/` between Python ints is float division, hence `ℚ`
division here; the guard `max(pass_accuracy, 1)` keeps the denominator
positive). -/
def calculate_odds (a b : TeamSideStats) (home_advantage : Bool) (rfa rfb : ℚ) : ℚ × ℚ :=
  let team_a_goal_diff : ℚ := ((a.goals - b.goals : ℤ) : ℚ)
  let team_b_goal_diff : ℚ := ((b.goals - a.goals : ℤ) : ℚ)
  let team_a_accuracy : ℚ := (a.shots : ℚ) / ((max a.pass_accuracy 1 : ℤ) : ℚ)
  let team_b_accuracy : ℚ := (b.shots : ℚ) / ((max b.pass_accuracy 1 : ℤ) : ℚ)
  let team_a_accuracy := min (team_a_accuracy / 10) 1
  let team_b_accuracy := min (team_b_accuracy / 10) 1
  let team_a_odds := 1 + team_a_goal_diff * 0.1 + team_a_accuracy * 0.2
  let team_b_odds := 1 + team_b_goal_diff * 0.1 + team_b_accuracy * 0.2
  let team_a_odds := if home_advantage then team_a_odds - 0.05 else team_a_odds
  let team_b_odds := if home_advantage then team_b_odds + 0.05 else team_b_odds
  let team_a_odds := team_a_odds + rfa
  let team_b_odds := team_b_odds + rfb
  let team_a_odds := max 1.5 (min team_a_odds 5.0)
  let team_b_odds := max 1.5 (min team_b_odds 5.0)
  (roundq2 team_a_odds, roundq2 team_b_odds)

/-! ## The two `preprocess_data` revisions
(`code/source/models/data_preprocessing.py` versus
`src/preprocessing/data_preprocessing.py`)

DataFrames are modelled column-oriented: a list of (column name, cells),
all columns of equal length. A cell is a float (`num`), a string (`str`), a
boolean (`bool`, the dtype `get_dummies` produces), a NaN (`missing`), a
standardised value (`scaled x mean variance`, keeping StandardScaler's
`(x - mean) / sqrt(variance)` symbolic since the square root leaves `ℚ`), or
a nested `markets` dictionary (`marketsVal`, as held by the `markets` column
of the second revision's frame). -/

/-- One DataFrame cell. -/
inductive Cell where
  | num (q : ℚ)
  | str (s : String)
  | bool (b : Bool)
  | missing
  | scaled (x mean variance : ℚ)
  | marketsVal (m : List (String × ApiMarket))
deriving DecidableEq, Repr

/-- A column-oriented DataFrame. -/
abbrev Table : Type := List (String × List Cell)

/-- NaN test. -/
def cellIsMissing : Cell → Bool
  | .missing => true
  | _ => false

/-- A column has pandas dtype `object` when it holds strings. -/
def isObjectCol (cells : List Cell) : Bool :=
  cells.any fun c => match c with | .str _ => true | _ => false

/-- A column has a numeric dtype (`float64`/`int64`) when every cell is a
number or NaN (an all-NaN column is `float64`); `bool` and `object` columns
are excluded. -/
def isNumericCol (cells : List Cell) : Bool :=
  !isObjectCol cells &&
    cells.all fun c => match c with | .num _ => true | .missing => true | _ => false

/-- `column.mean()`: the mean of the non-NaN values, `none` when there are
none (pandas' NaN). -/
def colMean (cells : List Cell) : Option ℚ :=
  let vs := cells.filterMap fun c => match c with | .num q => some q | _ => none
  if vs.isEmpty then none else some (vs.sum / (vs.length : ℚ))

/-- `df[column].fillna('missing')` for an object column. -/
def fillObject (cells : List Cell) : List Cell :=
  cells.map fun c => if cellIsMissing c then .str "missing" else c

/-- `df[column].fillna(df[column].mean())` for a numeric column (filling with
NaN when the mean is NaN leaves NaN). -/
def fillNumeric (cells : List Cell) : List Cell :=
  match colMean cells with
  | some m => cells.map fun c => if cellIsMissing c then .num m else c
  | none => cells

/-- Step 2 of the first revision with `fill_missing=True`: fill object
columns with `'missing'` and numeric columns with their mean (each column is
treated independently, so the two loops are one pass). -/
def fillStep (tbl : Table) : Table :=
  tbl.map fun col =>
    if isObjectCol col.2 then (col.1, fillObject col.2)
    else if isNumericCol col.2 then (col.1, fillNumeric col.2)
    else col

/-- Number of rows of a column-oriented frame. -/
def numRows (tbl : Table) : ℕ :=
  (tbl.head?.map fun col => col.2.length).getD 0

/-- `df.dropna()`: keep exactly the rows with no NaN in any column. -/
def dropna (tbl : Table) : Table :=
  let keep := (List.range (numRows tbl)).filter fun i =>
    !tbl.any fun col => cellIsMissing (col.2.getD i .missing)
  tbl.map fun col => (col.1, keep.map fun i => col.2.getD i .missing)

/-- One column of `StandardScaler.fit_transform`: each value becomes the
symbolic `(x - mean) / sqrt(variance)` (population variance, sklearn's
default). Only called on NaN-free numeric columns. -/
def scaleCol (cells : List Cell) : List Cell :=
  let vs := cells.filterMap fun c => match c with | .num q => some q | _ => none
  let mean := vs.sum / (vs.length : ℚ)
  let variance : ℚ := (vs.map fun x => (x - mean) ^ 2).sum / (vs.length : ℚ)
  cells.map fun c => match c with | .num q => .scaled q mean variance | c' => c'

/-- The distinct string values of an object column, in pandas' sorted
category order. -/
def uniqueSorted (cells : List Cell) : List String :=
  ((cells.filterMap fun c => match c with | .str s => some s | _ => none).dedup).mergeSort
    fun a b => decide (a ≤ b)

/-- The indicator columns `pd.get_dummies` produces for one object column
with `drop_first=True`: one `bool` column per distinct value except the
first. -/
def dummiesFor (name : String) (cells : List Cell) : List (String × List Cell) :=
  (uniqueSorted cells).drop 1 |>.map fun v =>
    (name ++ "_" ++ v, cells.map fun c => .bool (c == .str v))

/-- `pd.get_dummies(df, columns=objectCols, drop_first=True)`: the
non-categorical columns keep their order, the dummy columns follow. -/
def getDummies (tbl : Table) : Table :=
  (tbl.filter fun col => !isObjectCol col.2) ++
    (tbl.filter fun col => isObjectCol col.2).flatMap fun col => dummiesFor col.1 col.2

namespace CodeSourceModels

/-- `preprocess_data` of `code/source/models/data_preprocessing.py`.
`fileData` is the frame `pd.read_csv`/`read_excel` would produce, `none` when
loading raises (the source logs and re-raises). scikit-learn's scaler rejects
NaN input and empty input, modelled as `sklearnError`. On success the
function returns the single processed DataFrame. -/
def preprocess_data (fileData : Option Table) (file_type : String) (fill_missing : Bool) :
    Except PyErr Table := do
  if !(file_type == "csv" || file_type == "excel") then
    throw (.valueError "Unsupported file type. Please use 'csv' or 'excel'.")
  let df0 ← match fileData with
    | none => throw .loadError
    | some t => pure t
  let df1 := if fill_missing then fillStep df0 else dropna df0
  let df2 ←
    if (df1.filter fun col => isNumericCol col.2).isEmpty then pure df1
    else
      if numRows df1 == 0 ||
          (df1.any fun col => isNumericCol col.2 && col.2.any cellIsMissing) then
        throw .sklearnError
      else
        pure (df1.map fun col => if isNumericCol col.2 then (col.1, scaleCol col.2) else col)
  let df3 :=
    if (df2.filter fun col => isObjectCol col.2).isEmpty then df2 else getDummies df2
  return df3

end CodeSourceModels

/-- The nested read the second revision performs on one row's `markets`
dictionary:
`x.get(mid, {}).get('outcomes', {}).get(mid, {}).get('bookmakers', {}).get('bestPrice', {}).get('price', None)`. -/
def marketPrice (mkts : List (String × ApiMarket)) (mid : String) : Option ℚ :=
  (((dictGet mkts mid).bind fun m => dictGet m.outcomes mid).bind
    fun o => dictGet o.bookmakers "bestPrice").bind (·.price)

/-- `x.get('101', {}).get('outcomes', {}).get('101', {}).get('outcomeName', None)`. -/
def marketOutcome (mkts : List (String × ApiMarket)) (mid : String) : Option String :=
  ((dictGet mkts mid).bind fun m => dictGet m.outcomes mid).bind (·.outcomeName)

/-- `SimpleImputer(strategy='mean')` on one column: NaN becomes the column
mean. Only called when the column has at least one value (the imputer drops
an all-NaN column, which the caller turns into an error). -/
def imputeMean (cells : List Cell) : List Cell :=
  match colMean cells with
  | some m => cells.map fun c => if cellIsMissing c then .num m else c
  | none => cells

namespace SrcPreprocessing

/-- What `preprocess_data` of `src/preprocessing/data_preprocessing.py`
returns on success: the 3-tuple
`(scaled_features, df['match_outcome'], df)` — the scaled feature matrix
(held column-major here), the target column and the full DataFrame. -/
structure PreprocessResult where
  scaled_features : List (List Cell)
  match_outcome : List Cell
  df : Table
deriving DecidableEq, Repr

/-- `preprocess_data` of `src/preprocessing/data_preprocessing.py`, applied
to the decoded JSON rows, each carrying its `markets` value (`none` for a row
without one, which pandas turns into NaN). An empty input has no `markets`
column (`KeyError`); a NaN cell has no `.get` (`AttributeError`); an all-NaN
extracted column is dropped by `SimpleImputer`, which makes the three-column
write-back fail (`ValueError`). The `team_odds_ratio` division is exact
rational division (a zero `odds` value, which floats would turn into `inf`,
does not occur in any input considered here). -/
def preprocess_data (data : List (Option (List (String × ApiMarket)))) :
    Except PyErr PreprocessResult := do
  if data.isEmpty then throw .keyError
  if data.any (·.isNone) then throw .attributeError
  let rows := data.map (·.getD [])
  let team_strength := rows.map fun m => ((marketPrice m "101").map Cell.num).getD .missing
  let recent_form := rows.map fun m => ((marketPrice m "104").map Cell.num).getD .missing
  let odds := rows.map fun m => ((marketPrice m "101").map Cell.num).getD .missing
  let match_outcome := rows.map fun m => ((marketOutcome m "101").map Cell.str).getD .missing
  -- the required-columns check always passes: the three columns were just assigned
  if colMean team_strength == none || colMean recent_form == none ||
      colMean odds == none then
    throw (.valueError "imputer dropped an all-NaN column")
  let ts := imputeMean team_strength
  let rf := imputeMean recent_form
  let od := imputeMean odds
  let ratio := ts.zip od |>.map fun p =>
    match p.1, p.2 with
    | .num x, .num y => Cell.num (x / y)
    | _, _ => Cell.missing
  let df : Table :=
    [("markets", rows.map Cell.marketsVal), ("team_strength", ts), ("recent_form", rf),
     ("odds", od), ("match_outcome", match_outcome), ("team_odds_ratio", ratio)]
  return { scaled_features := [scaleCol ts, scaleCol rf, scaleCol od, scaleCol ratio]
           match_outcome := match_outcome
           df := df }

end SrcPreprocessing

/-- The shape of a Python return value, the granularity at which the two
revisions' results can be compared at all. -/
inductive ResultShape where
  | dataframe
  | tuple3
deriving DecidableEq, Repr

/-- The first revision returns one DataFrame. -/
def shapeOfModels (_ : Table) : ResultShape := .dataframe

/-- The second revision returns a 3-tuple. -/
def shapeOfSrc (_ : SrcPreprocessing.PreprocessResult) : ResultShape := .tuple3

/-- Concrete CSV frame for C8: one numeric column, two rows, nothing
missing. -/
def tblA : Table := [("best_price", [.num 2, .num 3])]

/-- Concrete "104" market for C8, priced 3. -/
def apiMarket104 : ApiMarket :=
  { marketName := some "Total", marketNameShort := some "O/U",
    oddsType := some "decimal",
    outcomes := [("104",
      ({ outcomeName := some "Over",
         bookmakers := [("bestPrice", { price := some 3, eventPath := none })] } : ApiOutcome))] }

/-- Concrete decoded JSON rows for C8: two identical rows whose `markets`
hold the "101" and "104" markets. -/
def rowsB : List (Option (List (String × ApiMarket))) :=
  [some [("101", apiMarket1), ("104", apiMarket104)],
   some [("101", apiMarket1), ("104", apiMarket104)]]

/-! ## Theorems about `predict_bet` and `extract_outcome_data` -/

/-- Claim C1 (code bug): the claim's EV formula is exactly what the loop body
of `predict_bet` writes — `ev = p * bookmaker_price - (1 - p)`, with the
price defaulting to 0 when `bookmaker_details`/`bookmaker_price` is absent —
but no call ever reaches that loop: at the failing input below (as on every
input) `predict_bet` raises
`ValueError("Missing required columns: bookmaker_details")` from
prediction.py:123, because `extract_outcome_data` flattens
`bookmaker_details` away while the module's own `preprocess_data` requires
that column, so no EV is ever computed. -/
theorem predict_bet_ev_dead_code :
    predict_bet [9/10] [evA] 5 1
      = .error (.valueError "Missing required columns: bookmaker_details") ∧
    (∀ dp p (d : OutcomeData),
      (mkBetPrediction dp p d).ev = p * d.bookmaker_price - (1 - p)) ∧
    (∀ e : RawEvent, (extractEvent e).bookmaker_price = eventBookmakerPrice e) :=
  ⟨rfl, fun _ _ _ => rfl, fun _ => rfl⟩

/-- Claim C2 (code bug): no call to `predict_bet` returns normally — every
call, on any input, raises a `ValueError` from the required-columns check at
prediction.py:123 — so the "expected-value ranked list of candidate bets" the
spec describes is never produced. (On the unreachable path past the check the
sort key would be `expected_profit = ev * bet_odd * desired_profit`, not the
EV itself.) -/
theorem predict_bet_never_returns (probs : List ℚ) (odds : List RawEvent)
    (max_odds desired_profit : ℚ) :
    ∃ msg, predict_bet probs odds max_odds desired_profit
      = .error (.valueError msg) := by
  cases odds with
  | nil =>
    exact ⟨"Missing required columns: best_price, event_id, market_name, bookmaker_details",
      rfl⟩
  | cons e rest =>
    exact ⟨"Missing required columns: bookmaker_details", rfl⟩

/-- Claim C3 (code bug): there is no returned list whose entries could pass
or fail the threshold: at the failing input below (two candidates priced 1
and 2, within the max-odds bound 5) `predict_bet` raises the
required-columns `ValueError` before the threshold filter of
prediction.py:138-150 is ever reached. -/
theorem predict_bet_raises_before_threshold :
    predict_bet [9/10, 11/20] [evA, evB] 5 1
      = .error (.valueError "Missing required columns: bookmaker_details") := rfl

/-- Claim C10: `extract_outcome_data` returns one record per input event, in
input order (so index alignment with the probability vector is preserved),
and populates every field, defaulting missing names to "Unknown", missing
prices to 0 and a missing link to "N/A". -/
theorem extract_outcome_data_alignment (odds : List RawEvent) (i : ℕ) (e : RawEvent) :
    (extract_outcome_data odds).length = odds.length ∧
    (extract_outcome_data odds)[i]? = odds[i]?.map extractEvent ∧
    (e.event_id = none → (extractEvent e).event_id = "Unknown") ∧
    (e.event_date = none → (extractEvent e).event_date = "Unknown") ∧
    (e.market_name = none → (extractEvent e).market_name = "Unknown") ∧
    (e.outcome_name = none → (extractEvent e).outcome_name = "Unknown") ∧
    (e.best_price = none → (extractEvent e).best_price = 0) ∧
    (e.bookmaker_details = none →
      (extractEvent e).bookmaker_name = "Unknown" ∧
        (extractEvent e).bookmaker_price = 0 ∧
        (extractEvent e).bookmaker_link = "N/A") := by
  refine ⟨by simp [extract_outcome_data], by simp [extract_outcome_data, List.getElem?_map],
    ?_, ?_, ?_, ?_, ?_, ?_⟩ <;>
    intro h <;> simp [extractEvent, h]

/-- Witness for C10 at a concrete input: an all-absent record and a singleton
list; every default fires. -/
theorem extract_outcome_data_alignment_witness :
    (extract_outcome_data [⟨none, none, none, none, none, none⟩]).length = 1 ∧
    (extract_outcome_data [⟨none, none, none, none, none, none⟩])[0]?
      = ([(⟨none, none, none, none, none, none⟩ : RawEvent)][0]?).map extractEvent ∧
    (extractEvent ⟨none, none, none, none, none, none⟩).event_id = "Unknown" ∧
    (extractEvent ⟨none, none, none, none, none, none⟩).best_price = 0 := by
  have h := extract_outcome_data_alignment [⟨none, none, none, none, none, none⟩] 0
    ⟨none, none, none, none, none, none⟩
  exact ⟨h.1, h.2.1, h.2.2.1 rfl, h.2.2.2.2.2.2.1 rfl⟩

/-! ## Theorems about `user_tracking.py` and the `/bet` handler -/

/-- Updating one key leaves lookups of every other key unchanged. -/
lemma lookupUser_updateUser_ne (store : UserStore) (uid u : String)
    (f : UserRecord → UserRecord) (h : u ≠ uid) :
    lookupUser (updateUser store uid f) u = lookupUser store u := by
  induction store with
  | nil => rfl
  | cons kv rest ih =>
    obtain ⟨k, v⟩ := kv
    by_cases hk : k = uid
    · subst hk
      have hku : k ≠ u := fun hh => h (hh ▸ rfl)
      simp [updateUser, lookupUser, hku]
    · by_cases hku : k = u
      · simp [updateUser, lookupUser, hk, hku, h]
      · simp [updateUser, lookupUser, hk, hku, ih]

/-- Updating a key rewrites exactly the value the lookup sees. -/
lemma lookupUser_updateUser_self (store : UserStore) (uid : String)
    (f : UserRecord → UserRecord) :
    lookupUser (updateUser store uid f) uid = (lookupUser store uid).map f := by
  induction store with
  | nil => rfl
  | cons kv rest ih =>
    obtain ⟨k, v⟩ := kv
    by_cases hk : k = uid
    · simp [updateUser, lookupUser, hk]
    · simp [updateUser, lookupUser, hk, ih]

/-- Lookup distributes over append, preferring the first occurrence. -/
lemma lookupUser_append (s t : UserStore) (u : String) :
    lookupUser (s ++ t) u = ((lookupUser s u).map some).getD (lookupUser t u) := by
  induction s with
  | nil => rfl
  | cons kv rest ih =>
    obtain ⟨k, v⟩ := kv
    by_cases hk : k = u
    · simp [lookupUser, hk]
    · simp [lookupUser, hk, ih]

/-- What the target user's record becomes after `save_user_bet`. -/
lemma save_user_bet_lookup_self (store : UserStore) (uid model : String) (amt : ℚ)
    (pred : String) (odds : ℚ) :
    lookupUser (save_user_bet store uid model amt pred odds) uid =
      some { bets := ((lookupUser store uid).getD defaultUserRecord).bets
               ++ [{ model := model, bet_amount := amt, prediction := pred, odds := odds }],
             preferences := ((lookupUser store uid).getD defaultUserRecord).preferences } := by
  unfold save_user_bet
  cases h : lookupUser store uid with
  | none =>
    simp only [h, Option.isSome_none, Bool.false_eq_true, if_false]
    rw [lookupUser_updateUser_self, lookupUser_append, h]
    simp [lookupUser, defaultUserRecord]
  | some r =>
    simp only [h, Option.isSome_some, if_true]
    rw [lookupUser_updateUser_self, h]
    simp

/-- Claim C6: `save_user_bet` appends exactly one record to the target user's
bet history (an absent user starts from the empty history), creates an absent
user with the default preferences `{'risk_tolerance': 'medium'}`, and leaves
every other user's record (bets and preferences) unchanged. -/
theorem save_user_bet_spec (store : UserStore) (uid model : String) (amt : ℚ)
    (pred : String) (odds : ℚ) :
    userBets (save_user_bet store uid model amt pred odds) uid
      = userBets store uid
          ++ [{ model := model, bet_amount := amt, prediction := pred, odds := odds }] ∧
    (lookupUser store uid = none →
      (lookupUser (save_user_bet store uid model amt pred odds) uid).map (·.preferences)
        = some { risk_tolerance := some "medium" }) ∧
    ∀ u, u ≠ uid →
      lookupUser (save_user_bet store uid model amt pred odds) u = lookupUser store u := by
  refine ⟨?_, ?_, ?_⟩
  · unfold userBets
    rw [save_user_bet_lookup_self]
    cases h : lookupUser store uid <;> simp [h, defaultUserRecord]
  · intro h
    rw [save_user_bet_lookup_self, h]
    simp [defaultUserRecord]
  · intro u hu
    unfold save_user_bet
    cases h : lookupUser store uid with
    | none =>
      simp only [h, Option.isSome_none, Bool.false_eq_true, if_false]
      rw [lookupUser_updateUser_ne _ _ _ _ hu, lookupUser_append]
      have huid : uid ≠ u := fun hh => hu (hh ▸ rfl)
      cases hsu : lookupUser store u with
      | none => simp [lookupUser, huid]
      | some r => simp
    | some r =>
      simp only [h, Option.isSome_some, if_true]
      exact lookupUser_updateUser_ne _ _ _ _ hu

/-- Witness for C6 at a concrete input: saving a bet for a fresh user "u" in
the empty store yields history `[bet]`, default preferences, and leaves the
other user "v" absent as before. -/
theorem save_user_bet_spec_witness :
    userBets (save_user_bet [] "u" "m1" 10 "Win" 2) "u"
      = [{ model := "m1", bet_amount := 10, prediction := "Win", odds := 2 }] ∧
    (lookupUser (save_user_bet [] "u" "m1" 10 "Win" 2) "u").map (·.preferences)
      = some { risk_tolerance := some "medium" } ∧
    lookupUser (save_user_bet [] "u" "m1" 10 "Win" 2) "v" = lookupUser ([] : UserStore) "v" := by
  have h := save_user_bet_spec [] "u" "m1" 10 "Win" 2
  exact ⟨h.1, h.2.1 rfl, h.2.2 "v" (by decide)⟩

/-- Claim C7: on a decoded dictionary response, `get_gambling_odds` returns
one odds entry per (market, outcome) pair: the length is the number of
outcomes summed over all markets, every (market, outcome) pair contributes
its entry, every entry arises from some pair, and each entry carries the
event fields, the market fields, and that outcome's name and best price. -/
theorem get_gambling_odds_shape (data : ApiResponse) :
    (get_gambling_odds data).length
      = (data.markets.map fun mkv => mkv.2.outcomes.length).sum ∧
    (∀ mkv ∈ data.markets, ∀ okv ∈ mkv.2.outcomes,
      mkOddsEntry data mkv.2 okv.2 ∈ get_gambling_odds data) ∧
    (∀ e ∈ get_gambling_odds data, ∃ mkv ∈ data.markets, ∃ okv ∈ mkv.2.outcomes,
      e = mkOddsEntry data mkv.2 okv.2) ∧
    (∀ m o, (mkOddsEntry data m o).event_id = data.eventId.getD "N/A" ∧
      (mkOddsEntry data m o).event_date = data.date.getD "N/A" ∧
      (mkOddsEntry data m o).event_status = data.eventStatus.getD "N/A" ∧
      (mkOddsEntry data m o).market_name = m.marketName.getD "N/A" ∧
      (mkOddsEntry data m o).market_short_name = m.marketNameShort.getD "N/A" ∧
      (mkOddsEntry data m o).odds_type = m.oddsType.getD "N/A" ∧
      (mkOddsEntry data m o).outcome_name = o.outcomeName.getD "N/A" ∧
      (mkOddsEntry data m o).best_price = (dictGet o.bookmakers "bestPrice").bind (·.price)) := by
  refine ⟨?_, ?_, ?_, fun m o => ⟨rfl, rfl, rfl, rfl, rfl, rfl, rfl, rfl⟩⟩
  · simp [get_gambling_odds, Function.comp_def]
  · intro mkv hm okv ho
    exact List.mem_flatMap.mpr ⟨mkv, hm, List.mem_map.mpr ⟨okv, ho, rfl⟩⟩
  · intro e he
    obtain ⟨mkv, hm, he'⟩ := List.mem_flatMap.mp he
    obtain ⟨okv, ho, rfl⟩ := List.mem_map.mp he'
    exact ⟨mkv, hm, okv, ho, rfl⟩

/-- Witness for C7 at a concrete input: the single (market, outcome) pair of
`apiResponse1` contributes its entry to the result. -/
theorem get_gambling_odds_shape_witness :
    mkOddsEntry apiResponse1 apiMarket1 apiOutcome1 ∈ get_gambling_odds apiResponse1 :=
  (get_gambling_odds_shape apiResponse1).2.1 ("101", apiMarket1) (by simp [apiResponse1])
    ("101", apiOutcome1) (by simp [apiMarket1])

/-! ## Theorems about `calculate_odds` (`models/utils/odds_calculator.py`) -/

/-- Rounding to two decimals keeps a value inside `[3/2, 5]`. -/
lemma roundq2_bounds {x : ℚ} (h1 : 3/2 ≤ x) (h2 : x ≤ 5) :
    3/2 ≤ roundq2 x ∧ roundq2 x ≤ 5 := by
  have hlo : (150 : ℤ) ≤ round (100 * x) := by
    have h := round_intCast (α := ℚ) 150 ▸
      (by rw [round_eq, round_eq]; exact Int.floor_mono (by push_cast; linarith) :
        round ((150 : ℤ) : ℚ) ≤ round (100 * x))
    simpa using h
  have hhi : round (100 * x) ≤ (500 : ℤ) := by
    have h := round_intCast (α := ℚ) 500 ▸
      (by rw [round_eq, round_eq]; exact Int.floor_mono (by push_cast; linarith) :
        round (100 * x) ≤ round ((500 : ℤ) : ℚ))
    simpa using h
  have hlo' : (150 : ℚ) ≤ ((round (100 * x) : ℤ) : ℚ) := by exact_mod_cast hlo
  have hhi' : ((round (100 * x) : ℤ) : ℚ) ≤ 500 := by exact_mod_cast hhi
  unfold roundq2
  constructor <;> linarith

/-- Claim C9: for any integer team stats (`pass_accuracy = 0` included — the
division is guarded by `max(pass_accuracy, 1)`, so evaluation is total) and
any random draws in `[0.05, 0.15]`, both odds `calculate_odds` returns lie in
`[1.5, 5.0]`. -/
theorem calculate_odds_range (a b : TeamSideStats) (home_advantage : Bool) (rfa rfb : ℚ)
    (_h1 : 1/20 ≤ rfa) (_h2 : rfa ≤ 3/20) (_h3 : 1/20 ≤ rfb) (_h4 : rfb ≤ 3/20) :
    3/2 ≤ (calculate_odds a b home_advantage rfa rfb).1 ∧
    (calculate_odds a b home_advantage rfa rfb).1 ≤ 5 ∧
    3/2 ≤ (calculate_odds a b home_advantage rfa rfb).2 ∧
    (calculate_odds a b home_advantage rfa rfb).2 ≤ 5 := by
  have key : ∀ y : ℚ, 3/2 ≤ roundq2 (max 1.5 (min y 5.0)) ∧ roundq2 (max 1.5 (min y 5.0)) ≤ 5 := by
    intro y
    refine roundq2_bounds ?_ ?_
    · have : (1.5 : ℚ) = 3/2 := by norm_num
      rw [← this]
      exact le_max_left _ _
    · refine max_le (by norm_num) (le_trans (min_le_right _ _) (by norm_num))
  exact ⟨(key _).1, (key _).2, (key _).1, (key _).2⟩

/-- Witness for C9 at a concrete input: the source file's own example stats
(3 goals/12 shots/75 accuracy versus 1/9/65), home advantage, draws 1/10. -/
theorem calculate_odds_range_witness :
    3/2 ≤ (calculate_odds ⟨3, 12, 75⟩ ⟨1, 9, 65⟩ true (1/10) (1/10)).1 ∧
    (calculate_odds ⟨3, 12, 75⟩ ⟨1, 9, 65⟩ true (1/10) (1/10)).1 ≤ 5 ∧
    3/2 ≤ (calculate_odds ⟨3, 12, 75⟩ ⟨1, 9, 65⟩ true (1/10) (1/10)).2 ∧
    (calculate_odds ⟨3, 12, 75⟩ ⟨1, 9, 65⟩ true (1/10) (1/10)).2 ≤ 5 :=
  calculate_odds_range ⟨3, 12, 75⟩ ⟨1, 9, 65⟩ true (1/10) (1/10)
    (by norm_num) (by norm_num) (by norm_num) (by norm_num)

/-! ## Theorems about the two `preprocess_data` revisions -/

/-- Claim C8: the return shapes of the two `preprocess_data` revisions
differ. On concrete inputs on which both succeed, the
`code/source/models` revision returns a single DataFrame while the
`src/preprocessing` revision returns a 3-tuple (scaled features, target
column, full DataFrame), and the two shapes are distinct, so no common
result shape makes the revisions equivalent. -/
theorem preprocess_data_revisions_incompatible :
    (CodeSourceModels.preprocess_data (some tblA) "csv" false).map shapeOfModels
      = Except.ok ResultShape.dataframe ∧
    (SrcPreprocessing.preprocess_data rowsB).map shapeOfSrc
      = Except.ok ResultShape.tuple3 ∧
    ResultShape.dataframe ≠ ResultShape.tuple3 :=
  ⟨rfl, rfl, by simp⟩

end SmartBet
